import Mathlib

/-!
Shallow embedding of the core of the Cloud-Master-Manager repository
(`src/cloud_master_manager/aws.py` and `src/cloud_master_manager/cli.py`).

The Python code is a thin layer over a cloud provider SDK.  Every provider
response consumed by a function is made an explicit argument of its Lean
embedding (the provider is an oracle), and for the stack reconciler the
provider is a state-passing client so that call sequencing and call counts
are observable.  Machine floats appearing in `get_top_usage` (amounts parsed
with the Python float parser) are modelled as exact rationals; only their ordering
matters to the code.  The stable Python sort method is modelled by
`List.insertionSort`, a stable sort with respect to the same comparison.
-/

namespace CMM

/-! ### The Python substring operator `pat in s` -/

/-- Auxiliary for `strIn`: does `pat` occur as a leading block of `l`? -/
def listHasPfx : List Char → List Char → Bool
  | _, [] => true
  | [], _ :: _ => false
  | c :: cs, d :: ds => c == d && listHasPfx cs ds

/-- Auxiliary for `strIn`: does `pat` occur contiguously anywhere in `l`? -/
def listHasSub : List Char → List Char → Bool
  | [], pat => pat.isEmpty
  | c :: cs, pat => listHasPfx (c :: cs) pat || listHasSub cs pat

/-- The Python substring test `pat in s`, used by `ensure_stack` on `str(e)`. -/
def strIn (pat s : String) : Bool := listHasSub s.data pat.data

/-- The Python expression `x or d` for an optional string `x`: `None` and `""` are falsy. -/
def pyOrDefault (v : Option String) (d : String) : String :=
  match v with
  | none => d
  | some s => if s = "" then d else s

/-! ### Provider errors

The code distinguishes `botocore.exceptions.ClientError` (an error reported
by the provider API) from `botocore.exceptions.BotoCoreError` (an SDK-level
failure); `ensure_stack` catches only the former.  `message` is `str(e)`. -/

/-- Exceptions raised by provider calls, as caught in `aws.py`. -/
inductive PErr where
  | clientError (msg : String)
  | botoCoreError (msg : String)
  deriving DecidableEq

/-- The Python rendering `str(e)` of a provider exception. -/
def PErr.message : PErr → String
  | .clientError m => m
  | .botoCoreError m => m

/-- Whether the exception is a `ClientError` (matched by `except ClientError`). -/
def PErr.isClient : PErr → Bool
  | .clientError _ => true
  | .botoCoreError _ => false

/-! ### `list_s3_buckets` (aws.py lines 45-56) -/

/-- One entry of the provider `list_buckets` response (`.get` fields). -/
structure BucketEntry where
  name : Option String
  creationDate : Option String
  deriving DecidableEq

/-- Outcome of the per-bucket `get_bucket_location` provider call:
either its `LocationConstraint` field (absent for the default region), or a
raised `ClientError`/`BotoCoreError`. -/
inductive LocLookup where
  | ok (locationConstraint : Option String)
  | err (e : PErr)
  deriving DecidableEq

/-- One row of the listing built by `list_s3_buckets`. -/
structure BucketRec where
  name : Option String
  creationDate : Option String
  region : String
  deriving DecidableEq

/-- Embedding of `list_s3_buckets`: each provider bucket entry is paired with
the response of its own region lookup.  The `try`/`except` around
`get_bucket_location` becomes the match on `LocLookup`; the Python expression
`... .get("LocationConstraint") or "us-east-1"` is `pyOrDefault`. -/
def list_s3_buckets (buckets : List (BucketEntry × LocLookup)) : List BucketRec :=
  buckets.map fun be =>
    { name := be.1.name
      creationDate := be.1.creationDate
      region :=
        match be.2 with
        | .ok lc => pyOrDefault lc "us-east-1"
        | .err _ => "unknown" }

/-! ### `get_month_cost` (aws.py lines 92-106) -/

/-- The `{"Amount": ..., "Unit": ...}` dictionary (fields read with `.get`). -/
structure CostAmount where
  amount : Option String
  unit : Option String
  deriving DecidableEq

/-- One entry of `ResultsByTime`; `totalUnblendedCost` is the value of
`period.get("Total", {}).get("UnblendedCost", {})`, absent when either key
is missing. -/
structure ResultPeriod where
  totalUnblendedCost : Option CostAmount
  deriving DecidableEq

/-- Embedding of `get_month_cost`: given the `ResultsByTime` list of the
provider response, return `(amount, currency)`. -/
def get_month_cost (resultsByTime : List ResultPeriod) : String × String :=
  match resultsByTime with
  | [] => ("0.0", "USD")
  | r :: _ =>
    let total := r.totalUnblendedCost.getD { amount := none, unit := none }
    (total.amount.getD "0.0", total.unit.getD "USD")

/-! ### `get_top_usage` (aws.py lines 109-128) -/

/-- One `(service, amount, unit)` row extracted from a provider usage group;
`amount` is the numeric value of the amount string of the group. -/
structure UsageRow where
  service : String
  amount : ℚ
  unit : String
  deriving DecidableEq

/-- The comparison realised by `rows.sort(key=lambda x: x[1], reverse=True)`:
`a` may stay before `b` iff the amount of `b` is at most that of `a`. -/
def usageDesc (a b : UsageRow) : Prop := b.amount ≤ a.amount

instance : DecidableRel usageDesc :=
  fun a b => inferInstanceAs (Decidable (b.amount ≤ a.amount))

instance : IsTotal UsageRow usageDesc := ⟨fun a b => le_total b.amount a.amount⟩

instance : IsTrans UsageRow usageDesc := ⟨fun _ _ _ hab hbc => le_trans hbc hab⟩

/-- The Python slice `l[:n]` for an arbitrary (possibly negative) `n`. -/
def pySliceTo (l : List α) (n : Int) : List α :=
  if 0 ≤ n then l.take n.toNat
  else l.take ((l.length : Int) + n).toNat

/-- Embedding of `get_top_usage`: the extracted rows are sorted in place by
amount, descending, with the stable Python sort (modelled by the stable
`List.insertionSort` under `usageDesc`), then sliced with `rows[:top_n]`. -/
def get_top_usage (groups : List UsageRow) (top_n : Int) : List UsageRow :=
  pySliceTo (List.insertionSort usageDesc groups) top_n

/-! ### `allocate_ec2_instance` (aws.py lines 131-163) -/

/-- One entry of the `TagSpecifications` list. -/
structure TagSpec where
  resourceType : String
  tags : List (String × String)
  deriving DecidableEq

/-- The keyword-argument dictionary passed to `ec2.run_instances`.  A field
that the Python code does not put into the `params` dict is `none`. -/
structure RunInstancesParams where
  imageId : String
  instanceType : String
  minCount : Int
  maxCount : Int
  keyName : Option String
  securityGroupIds : Option (List String)
  subnetId : Option String
  tagSpecifications : Option (List TagSpec)
  deriving DecidableEq

/-- Embedding of the request construction in `allocate_ec2_instance`: the
`params` dict it passes to `ec2.run_instances`.  Each `if arg:` guard is a
Python truthiness test, so `None` and empty values are both omitted. -/
def allocate_ec2_instance_params (ami_id instance_type : String)
    (key_name : Option String) (security_group_ids : Option (List String))
    (subnet_id : Option String) (count : Int) (name_tag : Option String) :
    RunInstancesParams :=
  { imageId := ami_id
    instanceType := instance_type
    minCount := count
    maxCount := count
    keyName :=
      match key_name with
      | some k => if k = "" then none else some k
      | none => none
    securityGroupIds :=
      match security_group_ids with
      | some g => if g = [] then none else some g
      | none => none
    subnetId :=
      match subnet_id with
      | some sb => if sb = "" then none else some sb
      | none => none
    tagSpecifications :=
      match name_tag with
      | some t =>
        if t = "" then none
        else some [{ resourceType := "instance", tags := [("Name", t)] }]
      | none => none }

/-! ### `deallocate_ec2_instances` (aws.py lines 166-175) -/

/-- A provider call issued by `deallocate_ec2_instances`. -/
inductive Ec2ApiCall where
  | terminateInstances (instanceIds : List String)
  | stopInstances (instanceIds : List String)
  deriving DecidableEq

/-- One entry of `TerminatingInstances`/`StoppingInstances` in the provider
response (`.get("InstanceId")`). -/
structure InstanceChange where
  instanceId : Option String
  deriving DecidableEq

/-- Embedding of `deallocate_ec2_instances`.  The function performs no local
validation of `instance_ids`: it always issues exactly one provider call,
recorded in the second component.  `terminating`/`stopping` are the lists the
provider would return for that call. -/
def deallocate_ec2_instances (terminating stopping : List InstanceChange)
    (instance_ids : List String) (terminate : Bool) :
    List (Option String) × List Ec2ApiCall :=
  if terminate then
    (terminating.map (fun i => i.instanceId), [Ec2ApiCall.terminateInstances instance_ids])
  else
    (stopping.map (fun i => i.instanceId), [Ec2ApiCall.stopInstances instance_ids])

/-! ### `ensure_stack` (aws.py lines 200-237)

The reconciler is embedded once, generically in a provider client `cf` that
threads a state `σ`: each provider operation returns an `Except` result and a
new state.  Two instantiations are used below: a trace-recording client with
fixed responses (for the probe/no-op classification claims) and a stateful
model of the CloudFormation service (for the idempotence claim). -/

/-- One `{"ParameterKey": k, "ParameterValue": v}` entry of the marshalled
parameter list. -/
structure CFParameter where
  parameterKey : String
  parameterValue : String
  deriving DecidableEq

/-- The CloudFormation operations `ensure_stack` uses.  `describe_stacks`
returns, on success, `resp["Stacks"][0]["StackId"]` (a successful describe of
a named stack always carries that stack); `create_stack`/`update_stack`
return `resp["StackId"]`. -/
structure CFClient (σ : Type) where
  describe_stacks : String → σ → Except PErr String × σ
  create_stack : String → String → List CFParameter → List String → σ → Except PErr String × σ
  wait_create : String → σ → Except PErr Unit × σ
  update_stack : String → String → List CFParameter → List String → σ → Except PErr String × σ
  wait_update : String → σ → Except PErr Unit × σ

/-- Embedding of `ensure_stack`.  The probe has an `except ClientError` whose
`"does not exist"` substring test selects the create path; any other probe
failure is re-raised.  In the update branch the `try` spans the update call
and its waiter, and its `except ClientError` with the
`"No updates are to be performed"` substring test re-fetches the stack and
returns `desc["Stacks"][0]["StackId"]`; the handler is duplicated here for
the two places an exception can originate. -/
def ensure_stack (cf : CFClient σ) (stack_name template_body : String)
    (parameters : List (String × String)) (capabilities : List String) (s : σ) :
    Except PErr String × σ :=
  let param_list := parameters.map fun kv => CFParameter.mk kv.1 kv.2
  let caps := if capabilities.isEmpty then [] else capabilities
  match cf.describe_stacks stack_name s with
  | (Except.error e, s₁) =>
    if e.isClient && strIn "does not exist" e.message then
      match cf.create_stack stack_name template_body param_list caps s₁ with
      | (Except.ok stackId, s₂) =>
        match cf.wait_create stack_name s₂ with
        | (Except.ok _, s₃) => (Except.ok stackId, s₃)
        | (Except.error e₂, s₃) => (Except.error e₂, s₃)
      | (Except.error e₂, s₂) => (Except.error e₂, s₂)
    else
      (Except.error e, s₁)
  | (Except.ok _, s₁) =>
    match cf.update_stack stack_name template_body param_list caps s₁ with
    | (Except.ok stackId, s₂) =>
      match cf.wait_update stack_name s₂ with
      | (Except.ok _, s₃) => (Except.ok stackId, s₃)
      | (Except.error e₂, s₃) =>
        if e₂.isClient && strIn "No updates are to be performed" e₂.message then
          match cf.describe_stacks stack_name s₃ with
          | (Except.ok stackId₂, s₄) => (Except.ok stackId₂, s₄)
          | (Except.error e₃, s₄) => (Except.error e₃, s₄)
        else (Except.error e₂, s₃)
    | (Except.error e₂, s₂) =>
      if e₂.isClient && strIn "No updates are to be performed" e₂.message then
        match cf.describe_stacks stack_name s₂ with
        | (Except.ok stackId₂, s₃) => (Except.ok stackId₂, s₃)
        | (Except.error e₃, s₃) => (Except.error e₃, s₃)
      else (Except.error e₂, s₂)

/-! ### Trace-recording client for `ensure_stack` -/

/-- A provider call issued by `ensure_stack`, with its arguments. -/
inductive CFCall where
  | describeStacks (stackName : String)
  | createStack (stackName templateBody : String)
      (params : List CFParameter) (caps : List String)
  | waitCreate (stackName : String)
  | updateStack (stackName templateBody : String)
      (params : List CFParameter) (caps : List String)
  | waitUpdate (stackName : String)
  deriving DecidableEq

/-- Whether a recorded call is a `describe_stacks` call. -/
def isDescribeCall : CFCall → Bool
  | .describeStacks _ => true
  | _ => false

/-- Whether a recorded call is a `create_stack` call. -/
def isCreateCall : CFCall → Bool
  | .createStack _ _ _ _ => true
  | _ => false

/-- Whether a recorded call is an `update_stack` call. -/
def isUpdateCall : CFCall → Bool
  | .updateStack _ _ _ _ => true
  | _ => false

/-- Fixed provider responses for one run of `ensure_stack`:
`describeFirst` answers the existence probe, `describeAgain` answers the
re-fetch in the no-op-update handler. -/
structure CFResponses where
  describeFirst : Except PErr String
  describeAgain : Except PErr String
  createResp : Except PErr String
  waitCreateResp : Except PErr Unit
  updateResp : Except PErr String
  waitUpdateResp : Except PErr Unit

/-- A `CFClient` that records every call in its state (a trace) and answers
each operation with the corresponding fixed response of `r`. -/
def traceClient (r : CFResponses) : CFClient (List CFCall) where
  describe_stacks := fun n s =>
    ((if s.any isDescribeCall then r.describeAgain else r.describeFirst),
      s ++ [CFCall.describeStacks n])
  create_stack := fun n b p c s => (r.createResp, s ++ [CFCall.createStack n b p c])
  wait_create := fun n s => (r.waitCreateResp, s ++ [CFCall.waitCreate n])
  update_stack := fun n b p c s => (r.updateResp, s ++ [CFCall.updateStack n b p c])
  wait_update := fun n s => (r.waitUpdateResp, s ++ [CFCall.waitUpdate n])

/-! ### Stateful CloudFormation model for the idempotence claim -/

/-- The provider-side record of one stack: its stable identifier and the
template/parameters/capabilities it currently holds. -/
structure StackRec where
  stackId : String
  templateBody : String
  parameters : List CFParameter
  capabilities : List String
  deriving DecidableEq

/-- Modelled CloudFormation service state: the stacks by name, a counter for
fresh stack identifiers, and call counters for each operation kind. -/
structure CFModelState where
  stackList : List (String × StackRec)
  nextId : Nat
  describeCount : Nat
  createCount : Nat
  updateCount : Nat
  deriving DecidableEq

/-- Look up a stack by name. -/
def findStack (name : String) : List (String × StackRec) → Option StackRec
  | [] => none
  | kv :: rest => if kv.1 = name then some kv.2 else findStack name rest

/-- Replace the record stored under `name` (first occurrence). -/
def putStack (name : String) (r : StackRec) :
    List (String × StackRec) → List (String × StackRec)
  | [] => []
  | kv :: rest => if kv.1 = name then (name, r) :: rest else kv :: putStack name r rest

/-- Modelled from the spec: the CloudFormation provider contract consumed by
the reconciler (spec sections 4.4 and 6) — `describe_stacks` on an absent
stack raises a `ClientError` whose message contains `"does not exist"` and on
a present stack returns its identifier; `create_stack` stores the stack under
a fresh identifier; `update_stack` with an identical template, parameter list
and capability list raises a `ClientError` whose message contains
`"No updates are to be performed"`, otherwise stores the new content under
the unchanged identifier; waiters succeed on these paths. -/
def modelClient : CFClient CFModelState where
  describe_stacks := fun n s =>
    ((match findStack n s.stackList with
      | some r => Except.ok r.stackId
      | none => Except.error (PErr.clientError
          "An error occurred (ValidationError) when calling the DescribeStacks operation: Stack does not exist")),
      { s with describeCount := s.describeCount + 1 })
  create_stack := fun n b p c s =>
    match findStack n s.stackList with
    | some _ =>
      (Except.error (PErr.clientError "AlreadyExistsException"),
        { s with createCount := s.createCount + 1 })
    | none =>
      (Except.ok ("arn:stack/" ++ n ++ "/" ++ toString s.nextId),
        { s with
          stackList := (n, StackRec.mk ("arn:stack/" ++ n ++ "/" ++ toString s.nextId) b p c) :: s.stackList
          nextId := s.nextId + 1
          createCount := s.createCount + 1 })
  wait_create := fun _ s => (Except.ok (), s)
  update_stack := fun n b p c s =>
    match findStack n s.stackList with
    | none =>
      (Except.error (PErr.clientError "Stack does not exist"),
        { s with updateCount := s.updateCount + 1 })
    | some r =>
      if r.templateBody = b ∧ r.parameters = p ∧ r.capabilities = c then
        (Except.error (PErr.clientError
          "An error occurred (ValidationError) when calling the UpdateStack operation: No updates are to be performed."),
          { s with updateCount := s.updateCount + 1 })
      else
        (Except.ok r.stackId,
          { s with
            stackList := putStack n (StackRec.mk r.stackId b p c) s.stackList
            updateCount := s.updateCount + 1 })
  wait_update := fun _ s => (Except.ok (), s)

/-! ### `resources list` command (cli.py lines 57-148)

The command calls the four fetchers inside separate `try`/`except Exception`
blocks; here the outcome of each fetcher is an `Except PErr` input, and the
rendered output (headers, tables, warnings, the final info line) is a list of
events. -/

/-- One `{"InstanceId": ..., ...}` record returned by `list_ec2_instances`. -/
structure Ec2Inst where
  instanceId : Option String
  instanceType : Option String
  state : Option String
  name : Option String
  az : Option String
  launchTime : Option String
  deriving DecidableEq

/-- One record returned by `list_rds_instances`. -/
structure RdsInst where
  dbInstanceIdentifier : Option String
  dbInstanceClass : Option String
  engine : Option String
  status : Option String
  multiAZ : Option Bool
  deriving DecidableEq

/-- One record returned by `list_lambda_functions`. -/
structure LambdaFn where
  functionName : Option String
  runtime : Option String
  lastModified : Option String
  deriving DecidableEq

/-- A table cell: the row lists mix optional strings with the `MultiAZ`
boolean. -/
inductive Cell where
  | str (v : Option String)
  | boolVal (v : Option Bool)
  deriving DecidableEq

/-- A rendering action of the command (`print_header`, `print_table`,
`print_warn`, `print_info`). -/
inductive Event where
  | header (title : String)
  | table (title : String) (rows : List (List Cell))
  | warn (message : String)
  | info (message : String)
  deriving DecidableEq

/-- The state filter of the EC2 block:
`i.get("State") in {"pending", "running", "stopping", "stopped"}`. -/
def ec2StateShown (st : Option String) : Bool :=
  st == some "pending" || st == some "running" || st == some "stopping"
    || st == some "stopped"

/-- The EC2 row `[InstanceId, Name, Type, State, AZ, LaunchTime]`. -/
def ec2Row (i : Ec2Inst) : List Cell :=
  [Cell.str i.instanceId, Cell.str i.name, Cell.str i.instanceType,
    Cell.str i.state, Cell.str i.az, Cell.str i.launchTime]

/-- The S3 row `[Name, Region, CreationDate]`. -/
def s3Row (b : BucketRec) : List Cell :=
  [Cell.str b.name, Cell.str (some b.region), Cell.str b.creationDate]

/-- The RDS row `[Identifier, Engine, Class, Status, MultiAZ]`. -/
def rdsRow (d : RdsInst) : List Cell :=
  [Cell.str d.dbInstanceIdentifier, Cell.str d.engine, Cell.str d.dbInstanceClass,
    Cell.str d.status, Cell.boolVal d.multiAZ]

/-- The Lambda row `[Name, Runtime, LastModified]`. -/
def lambdaRow (f : LambdaFn) : List Cell :=
  [Cell.str f.functionName, Cell.str f.runtime, Cell.str f.lastModified]

/-- The EC2 `try`/`except` block: on success print the table when the
filtered row list is non-empty, on any exception print a warning. -/
def ec2Section (res : Except PErr (List Ec2Inst)) : List Event :=
  match res with
  | .ok insts =>
    let rows := (insts.filter fun i => ec2StateShown i.state).map ec2Row
    if rows.isEmpty then [] else [Event.table "EC2 Instances" rows]
  | .error e => [Event.warn ("EC2: " ++ e.message)]

/-- The S3 `try`/`except` block. -/
def s3Section (res : Except PErr (List BucketRec)) : List Event :=
  match res with
  | .ok buckets =>
    let rows := buckets.map s3Row
    if rows.isEmpty then [] else [Event.table "S3 Buckets" rows]
  | .error e => [Event.warn ("S3: " ++ e.message)]

/-- The RDS `try`/`except` block. -/
def rdsSection (res : Except PErr (List RdsInst)) : List Event :=
  match res with
  | .ok dbs =>
    let rows := dbs.map rdsRow
    if rows.isEmpty then [] else [Event.table "RDS Instances" rows]
  | .error e => [Event.warn ("RDS: " ++ e.message)]

/-- The Lambda `try`/`except` block. -/
def lambdaSection (res : Except PErr (List LambdaFn)) : List Event :=
  match res with
  | .ok fns =>
    let rows := fns.map lambdaRow
    if rows.isEmpty then [] else [Event.table "Lambda Functions" rows]
  | .error e => [Event.warn ("Lambda: " ++ e.message)]

/-- Whether an event is a printed table; `any_resources` in the Python code
is set exactly when some block printed its table. -/
def isTableEvent : Event → Bool
  | .table _ _ => true
  | _ => false

/-- Embedding of the `resources list` command body: header, then the four
independent blocks in order, then the `"No resource is allocated"` info line
when no block printed a table.  The function is total: no fetcher failure
escapes it. -/
def list_resources (ec2R : Except PErr (List Ec2Inst))
    (s3R : Except PErr (List BucketRec)) (rdsR : Except PErr (List RdsInst))
    (lamR : Except PErr (List LambdaFn)) : List Event :=
  let sections :=
    ec2Section ec2R ++ s3Section s3R ++ rdsSection rdsR ++ lambdaSection lamR
  (Event.header "Active Resources" :: sections)
    ++ (if sections.any isTableEvent then [] else [Event.info "No resource is allocated"])

/-! ## Theorems -/

/-- Claim C6: when the cost query returns no result periods, `get_month_cost`
returns the pair `("0.0", "USD")` instead of failing. -/
theorem get_month_cost_empty_fallback : get_month_cost [] = ("0.0", "USD") := rfl

/-- Claim C7: a bucket whose region lookup raises a provider error (of either
kind) still appears in the returned listing, at its position and with its
name, with the region field set to the literal `"unknown"`; the buckets after
it are still processed unchanged. -/
theorem list_s3_buckets_lookup_failure (pre post : List (BucketEntry × LocLookup))
    (be : BucketEntry) (e : PErr) :
    list_s3_buckets (pre ++ (be, LocLookup.err e) :: post) =
      list_s3_buckets pre
        ++ { name := be.name, creationDate := be.creationDate, region := "unknown" }
          :: list_s3_buckets post := by
  simp [list_s3_buckets]

/-- Claim C10: a bucket whose region lookup succeeds with a null (or empty)
location constraint gets the region `"us-east-1"`, a fallback distinct from
the `"unknown"` used for failed lookups. -/
theorem list_s3_buckets_default_region (pre post : List (BucketEntry × LocLookup))
    (be : BucketEntry) (lc : Option String) (h : lc = none ∨ lc = some "") :
    list_s3_buckets (pre ++ (be, LocLookup.ok lc) :: post) =
      list_s3_buckets pre
        ++ { name := be.name, creationDate := be.creationDate, region := "us-east-1" }
          :: list_s3_buckets post := by
  rcases h with h | h <;> subst h <;> simp [list_s3_buckets, pyOrDefault]

/-- Witness for C10 at a concrete bucket with a null location constraint. -/
theorem list_s3_buckets_default_region_witness :
    list_s3_buckets [({ name := some "b1", creationDate := none }, LocLookup.ok none)] =
      [{ name := some "b1", creationDate := none, region := "us-east-1" }] := by
  simpa using
    list_s3_buckets_default_region [] [] { name := some "b1", creationDate := none }
      none (Or.inl rfl)

/-- Claim C8: every optional argument that is not provided is absent from the
request passed to `ec2.run_instances` (the field is `none`, not an empty
value), while the required fields — image, type, and the count as both
minimum and maximum — are always present. -/
theorem allocate_ec2_omits_absent_fields (ami_id instance_type : String)
    (key_name : Option String) (security_group_ids : Option (List String))
    (subnet_id : Option String) (count : Int) (name_tag : Option String) :
    (key_name = none →
      (allocate_ec2_instance_params ami_id instance_type key_name
        security_group_ids subnet_id count name_tag).keyName = none) ∧
    (security_group_ids = none →
      (allocate_ec2_instance_params ami_id instance_type key_name
        security_group_ids subnet_id count name_tag).securityGroupIds = none) ∧
    (subnet_id = none →
      (allocate_ec2_instance_params ami_id instance_type key_name
        security_group_ids subnet_id count name_tag).subnetId = none) ∧
    (name_tag = none →
      (allocate_ec2_instance_params ami_id instance_type key_name
        security_group_ids subnet_id count name_tag).tagSpecifications = none) ∧
    (allocate_ec2_instance_params ami_id instance_type key_name
        security_group_ids subnet_id count name_tag).imageId = ami_id ∧
    (allocate_ec2_instance_params ami_id instance_type key_name
        security_group_ids subnet_id count name_tag).instanceType = instance_type ∧
    (allocate_ec2_instance_params ami_id instance_type key_name
        security_group_ids subnet_id count name_tag).minCount = count ∧
    (allocate_ec2_instance_params ami_id instance_type key_name
        security_group_ids subnet_id count name_tag).maxCount = count := by
  refine ⟨?_, ?_, ?_, ?_, rfl, rfl, rfl, rfl⟩ <;> rintro rfl <;> rfl

/-- Witness for C8: a request built with no optional argument present. -/
theorem allocate_ec2_omits_absent_fields_witness :
    (allocate_ec2_instance_params "ami-1" "t3.micro" none none none 1 none).keyName = none ∧
    (allocate_ec2_instance_params "ami-1" "t3.micro" none none none 1 none).securityGroupIds = none ∧
    (allocate_ec2_instance_params "ami-1" "t3.micro" none none none 1 none).subnetId = none ∧
    (allocate_ec2_instance_params "ami-1" "t3.micro" none none none 1 none).tagSpecifications = none ∧
    (allocate_ec2_instance_params "ami-1" "t3.micro" none none none 1 none).minCount = 1 ∧
    (allocate_ec2_instance_params "ami-1" "t3.micro" none none none 1 none).maxCount = 1 := by
  obtain ⟨h1, h2, h3, h4, -, -, h5, h6⟩ :=
    allocate_ec2_omits_absent_fields "ami-1" "t3.micro" none none none 1 none
  exact ⟨h1 rfl, h2 rfl, h3 rfl, h4 rfl, h5, h6⟩

/-- Claim C5 is violated by the code (code bug): `deallocate_ec2_instances`
performs no local validation — there is no `InvalidArgument` path at all in
its embedding — and with an empty identifier list it still issues exactly one
provider call (`terminate_instances` or `stop_instances` according to the
flag) carrying the empty list, rather than zero provider calls. -/
theorem deallocate_ec2_empty_ids_still_calls_provider
    (terminating stopping : List InstanceChange) (terminate : Bool) :
    (deallocate_ec2_instances terminating stopping [] terminate).2 =
      [if terminate then Ec2ApiCall.terminateInstances []
        else Ec2ApiCall.stopInstances []] := by
  cases terminate <;> rfl

/-- A Python slice `l[:n]` is a take, hence a sublist of `l`. -/
theorem pySliceTo_sublist (l : List α) (n : Int) : List.Sublist (pySliceTo l n) l := by
  unfold pySliceTo
  split <;> exact List.take_sublist _ _

/-- A Python slice `l[:n]` is a prefix of `l`. -/
theorem pySliceTo_isPfx (l : List α) (n : Int) : List.IsPrefix (pySliceTo l n) l := by
  unfold pySliceTo
  split <;> exact List.take_prefix _ _

/-- With `top_n` equal to the group count, `get_top_usage` returns the whole
sorted ranking. -/
theorem get_top_usage_full (groups : List UsageRow) :
    get_top_usage groups (groups.length : Int) =
      List.insertionSort usageDesc groups := by
  unfold get_top_usage pySliceTo
  rw [if_pos (Int.natCast_nonneg _)]
  have h1 : (groups.length : Int).toNat = (List.insertionSort usageDesc groups).length := by
    simp [List.length_insertionSort]
  rw [h1, List.take_length]

/-- Claim C4 counterexample: `topN = -1` is `≤ 0`, yet on the three usage
groups of the specification the result is not the empty sequence — a negative
slice drops only the last row of the descending ranking. -/
theorem get_top_usage_nonpos_counterexample :
    (-1 : Int) ≤ 0 ∧
      get_top_usage
          [{ service := "EC2", amount := 5, unit := "Hrs" },
            { service := "S3", amount := 12, unit := "GB" },
            { service := "RDS", amount := 1, unit := "Hrs" }] (-1) =
        [{ service := "S3", amount := 12, unit := "GB" },
          { service := "EC2", amount := 5, unit := "Hrs" }] ∧
      get_top_usage
          [{ service := "EC2", amount := 5, unit := "Hrs" },
            { service := "S3", amount := 12, unit := "GB" },
            { service := "RDS", amount := 1, unit := "Hrs" }] (-1) ≠ [] := by
  refine ⟨by decide, by decide, by decide⟩

/-- Claim C4 (amended): `get_top_usage` returns the rows sorted by amount in
descending order with ties kept in provider order (stable sort); a `topN` of
exactly `0` yields the empty sequence, but a negative `topN` follows Python
slice semantics — it keeps all but the last `min(|topN|, count)` rows of the
ranking instead of returning the empty sequence; a `topN` of at least the
group count returns all available groups; and every result is a prefix of
the full descending ranking. -/
theorem get_top_usage_spec (groups : List UsageRow) (top_n : Int) :
    (get_top_usage groups top_n).Pairwise usageDesc ∧
    (top_n = 0 → get_top_usage groups top_n = []) ∧
    (top_n < 0 → (get_top_usage groups top_n).length
        = groups.length - min groups.length top_n.natAbs) ∧
    ((groups.length : Int) ≤ top_n → (get_top_usage groups top_n).Perm groups) ∧
     List.IsPrefix (get_top_usage groups top_n)
      (get_top_usage groups (groups.length : Int)) ∧
    (∀ a b, usageDesc a b → List.Sublist [a, b] groups →
      List.Sublist [a, b] (get_top_usage groups (groups.length : Int))) := by
  refine ⟨?_, ?_, ?_, ?_, ?_, ?_⟩
  · exact (List.sorted_insertionSort usageDesc groups).sublist
      (pySliceTo_sublist _ top_n)
  · rintro rfl
    simp [get_top_usage, pySliceTo]
  · intro hneg
    unfold get_top_usage pySliceTo
    rw [if_neg (by omega)]
    rw [List.length_take, List.length_insertionSort]
    omega
  · intro hle
    unfold get_top_usage pySliceTo
    rw [if_pos (by omega)]
    rw [List.take_of_length_le (by rw [List.length_insertionSort]; omega)]
    exact List.perm_insertionSort usageDesc groups
  · rw [get_top_usage_full]
    exact pySliceTo_isPfx _ top_n
  · intro a b hab hsub
    rw [get_top_usage_full]
    exact List.pair_sublist_insertionSort hab hsub

/-- Witness for C4 (amended) on the example groups of the specification: `topN = 0` yields
the empty sequence and `topN = 3` returns a permutation of all three
groups. -/
theorem get_top_usage_spec_witness :
    get_top_usage
        [{ service := "EC2", amount := 5, unit := "Hrs" },
          { service := "S3", amount := 12, unit := "GB" },
          { service := "RDS", amount := 1, unit := "Hrs" }] 0 = [] ∧
      (get_top_usage
          [{ service := "EC2", amount := 5, unit := "Hrs" },
            { service := "S3", amount := 12, unit := "GB" },
            { service := "RDS", amount := 1, unit := "Hrs" }] 3).Perm
        [{ service := "EC2", amount := 5, unit := "Hrs" },
          { service := "S3", amount := 12, unit := "GB" },
          { service := "RDS", amount := 1, unit := "Hrs" }] := by
  constructor
  · exact (get_top_usage_spec _ 0).2.1 rfl
  · exact (get_top_usage_spec
      [{ service := "EC2", amount := 5, unit := "Hrs" },
        { service := "S3", amount := 12, unit := "GB" },
        { service := "RDS", amount := 1, unit := "Hrs" }] 3).2.2.2.1 (by decide)

/-- An event printed by any of the four blocks appears in the command
output. -/
theorem mem_list_resources_of_mem_sections {ev : Event}
    (ec2R : Except PErr (List Ec2Inst)) (s3R : Except PErr (List BucketRec))
    (rdsR : Except PErr (List RdsInst)) (lamR : Except PErr (List LambdaFn))
    (h : ev ∈ ec2Section ec2R ∨ ev ∈ s3Section s3R ∨ ev ∈ rdsSection rdsR
      ∨ ev ∈ lambdaSection lamR) :
    ev ∈ list_resources ec2R s3R rdsR lamR := by
  unfold list_resources
  rcases h with h | h | h | h <;>
    simp only [List.cons_append, List.mem_cons, List.mem_append] <;> tauto

/-- Claim C9: each resource-kind block of the `resources list` command is
isolated — every failing kind contributes its own standalone warning to the
output, and every non-failing kind still has its table (of its non-empty row
list) in the output, whatever the other kinds did; the command itself never
fails (its embedding is total) and all four kinds are always attempted. -/
theorem list_resources_partial_isolation (ec2R : Except PErr (List Ec2Inst))
    (s3R : Except PErr (List BucketRec)) (rdsR : Except PErr (List RdsInst))
    (lamR : Except PErr (List LambdaFn)) :
    (∀ e, ec2R = Except.error e →
      Event.warn ("EC2: " ++ e.message) ∈ list_resources ec2R s3R rdsR lamR) ∧
    (∀ e, s3R = Except.error e →
      Event.warn ("S3: " ++ e.message) ∈ list_resources ec2R s3R rdsR lamR) ∧
    (∀ e, rdsR = Except.error e →
      Event.warn ("RDS: " ++ e.message) ∈ list_resources ec2R s3R rdsR lamR) ∧
    (∀ e, lamR = Except.error e →
      Event.warn ("Lambda: " ++ e.message) ∈ list_resources ec2R s3R rdsR lamR) ∧
    (∀ insts, ec2R = Except.ok insts →
      (insts.filter fun i => ec2StateShown i.state) ≠ [] →
      Event.table "EC2 Instances"
          ((insts.filter fun i => ec2StateShown i.state).map ec2Row)
        ∈ list_resources ec2R s3R rdsR lamR) ∧
    (∀ buckets, s3R = Except.ok buckets → buckets ≠ [] →
      Event.table "S3 Buckets" (buckets.map s3Row)
        ∈ list_resources ec2R s3R rdsR lamR) ∧
    (∀ dbs, rdsR = Except.ok dbs → dbs ≠ [] →
      Event.table "RDS Instances" (dbs.map rdsRow)
        ∈ list_resources ec2R s3R rdsR lamR) ∧
    (∀ fns, lamR = Except.ok fns → fns ≠ [] →
      Event.table "Lambda Functions" (fns.map lambdaRow)
        ∈ list_resources ec2R s3R rdsR lamR) := by
  refine ⟨?_, ?_, ?_, ?_, ?_, ?_, ?_, ?_⟩
  · rintro e rfl
    exact mem_list_resources_of_mem_sections _ _ _ _ (Or.inl (by simp [ec2Section]))
  · rintro e rfl
    exact mem_list_resources_of_mem_sections _ _ _ _
      (Or.inr (Or.inl (by simp [s3Section])))
  · rintro e rfl
    exact mem_list_resources_of_mem_sections _ _ _ _
      (Or.inr (Or.inr (Or.inl (by simp [rdsSection]))))
  · rintro e rfl
    exact mem_list_resources_of_mem_sections _ _ _ _
      (Or.inr (Or.inr (Or.inr (by simp [lambdaSection]))))
  · rintro insts rfl hne
    refine mem_list_resources_of_mem_sections _ _ _ _ (Or.inl ?_)
    simp [ec2Section, List.isEmpty_iff, hne]
  · rintro buckets rfl hne
    refine mem_list_resources_of_mem_sections _ _ _ _ (Or.inr (Or.inl ?_))
    simp [s3Section, List.isEmpty_iff, hne]
  · rintro dbs rfl hne
    refine mem_list_resources_of_mem_sections _ _ _ _ (Or.inr (Or.inr (Or.inl ?_)))
    simp [rdsSection, List.isEmpty_iff, hne]
  · rintro fns rfl hne
    refine mem_list_resources_of_mem_sections _ _ _ _ (Or.inr (Or.inr (Or.inr ?_)))
    simp [lambdaSection, List.isEmpty_iff, hne]

/-- Witness for C9: with exactly one failing kind (RDS), the output still
holds the tables of the other three kinds together with the RDS warning. -/
theorem list_resources_partial_isolation_witness :
    Event.warn ("RDS: " ++ PErr.message (PErr.clientError "AccessDenied"))
        ∈ list_resources
          (Except.ok [⟨some "i-1", some "t3.micro", some "running", some "web", some "us-east-1a", none⟩])
          (Except.ok [⟨some "b1", none, "us-east-1"⟩])
          (Except.error (PErr.clientError "AccessDenied"))
          (Except.ok [⟨some "fn", some "python3.12", none⟩]) ∧
      Event.table "EC2 Instances"
          (([(⟨some "i-1", some "t3.micro", some "running", some "web", some "us-east-1a", none⟩ : Ec2Inst)].filter
            fun i => ec2StateShown i.state).map ec2Row)
        ∈ list_resources
          (Except.ok [⟨some "i-1", some "t3.micro", some "running", some "web", some "us-east-1a", none⟩])
          (Except.ok [⟨some "b1", none, "us-east-1"⟩])
          (Except.error (PErr.clientError "AccessDenied"))
          (Except.ok [⟨some "fn", some "python3.12", none⟩]) ∧
      Event.table "S3 Buckets" ([(⟨some "b1", none, "us-east-1"⟩ : BucketRec)].map s3Row)
        ∈ list_resources
          (Except.ok [⟨some "i-1", some "t3.micro", some "running", some "web", some "us-east-1a", none⟩])
          (Except.ok [⟨some "b1", none, "us-east-1"⟩])
          (Except.error (PErr.clientError "AccessDenied"))
          (Except.ok [⟨some "fn", some "python3.12", none⟩]) ∧
      Event.table "Lambda Functions" ([(⟨some "fn", some "python3.12", none⟩ : LambdaFn)].map lambdaRow)
        ∈ list_resources
          (Except.ok [⟨some "i-1", some "t3.micro", some "running", some "web", some "us-east-1a", none⟩])
          (Except.ok [⟨some "b1", none, "us-east-1"⟩])
          (Except.error (PErr.clientError "AccessDenied"))
          (Except.ok [⟨some "fn", some "python3.12", none⟩]) := by
  obtain ⟨-, -, h3, -, h5, h6, -, h8⟩ :=
    list_resources_partial_isolation
      (Except.ok [⟨some "i-1", some "t3.micro", some "running", some "web", some "us-east-1a", none⟩])
      (Except.ok [⟨some "b1", none, "us-east-1"⟩])
      (Except.error (PErr.clientError "AccessDenied"))
      (Except.ok [⟨some "fn", some "python3.12", none⟩])
  exact ⟨h3 _ rfl, h5 _ rfl (by decide), h6 _ rfl (by decide), h8 _ rfl (by decide)⟩

/-- Claim C1: classification of the existence probe in `ensure_stack`.
If the describe call raises a provider `ClientError` whose message contains
`"does not exist"`, the run takes the create path and never issues an update
call; if the describe call raises any other error (a `ClientError` without
the substring, or any SDK-level error, which the except clause of the probe
does not catch), that error propagates unmodified and no further provider
call is made; if the describe call succeeds, the run takes the update path
and never issues a create call. -/
theorem ensure_stack_probe_classification (r : CFResponses) (n b : String)
    (p : List (String × String)) (c : List String) :
    (∀ m, r.describeFirst = Except.error (PErr.clientError m) →
      strIn "does not exist" m = true →
      (ensure_stack (traceClient r) n b p c []).2.any isCreateCall = true ∧
      (ensure_stack (traceClient r) n b p c []).2.any isUpdateCall = false) ∧
    (∀ e, r.describeFirst = Except.error e →
      (e.isClient && strIn "does not exist" e.message) = false →
      (ensure_stack (traceClient r) n b p c []).1 = Except.error e ∧
      (ensure_stack (traceClient r) n b p c []).2 = [CFCall.describeStacks n]) ∧
    (∀ v, r.describeFirst = Except.ok v →
      (ensure_stack (traceClient r) n b p c []).2.any isUpdateCall = true ∧
      (ensure_stack (traceClient r) n b p c []).2.any isCreateCall = false) := by
  refine ⟨?_, ?_, ?_⟩
  · intro m hd hm
    cases hc : r.createResp with
    | error e₂ =>
      simp [ensure_stack, traceClient, hd, hm, hc, PErr.isClient, PErr.message,
        isCreateCall, isUpdateCall, isDescribeCall]
    | ok sid =>
      cases hw : r.waitCreateResp with
      | error e₃ =>
        simp [ensure_stack, traceClient, hd, hm, hc, hw, PErr.isClient,
          PErr.message, isCreateCall, isUpdateCall, isDescribeCall]
      | ok u =>
        simp [ensure_stack, traceClient, hd, hm, hc, hw, PErr.isClient,
          PErr.message, isCreateCall, isUpdateCall, isDescribeCall]
  · intro e hd hcond
    constructor <;>
      simp [ensure_stack, traceClient, hd, hcond, isDescribeCall]
  · intro v hd
    cases hu : r.updateResp with
    | error e₂ =>
      cases hb : (e₂.isClient && strIn "No updates are to be performed" e₂.message) with
      | false =>
        simp [ensure_stack, traceClient, hd, hu, hb, isCreateCall, isUpdateCall,
          isDescribeCall]
      | true =>
        cases hd₂ : r.describeAgain with
        | error e₃ =>
          simp [ensure_stack, traceClient, hd, hu, hb, hd₂, isCreateCall,
            isUpdateCall, isDescribeCall]
        | ok sid₂ =>
          simp [ensure_stack, traceClient, hd, hu, hb, hd₂, isCreateCall,
            isUpdateCall, isDescribeCall]
    | ok u =>
      cases hw : r.waitUpdateResp with
      | ok u₀ =>
        simp [ensure_stack, traceClient, hd, hu, hw, isCreateCall, isUpdateCall,
          isDescribeCall]
      | error e₂ =>
        cases hb : (e₂.isClient && strIn "No updates are to be performed" e₂.message) with
        | false =>
          simp [ensure_stack, traceClient, hd, hu, hw, hb, isCreateCall,
            isUpdateCall, isDescribeCall]
        | true =>
          cases hd₂ : r.describeAgain with
          | error e₃ =>
            simp [ensure_stack, traceClient, hd, hu, hw, hb, hd₂, isCreateCall,
              isUpdateCall, isDescribeCall]
          | ok sid₂ =>
            simp [ensure_stack, traceClient, hd, hu, hw, hb, hd₂, isCreateCall,
              isUpdateCall, isDescribeCall]

/-- Witness for C1: a probe answered by a `ClientError` carrying
`"does not exist"` leads to a create call and no update call, and a probe
answered by an access-denied `ClientError` propagates it after the single
describe call. -/
theorem ensure_stack_probe_classification_witness :
    ((ensure_stack
        (traceClient ⟨Except.error (PErr.clientError
            "An error occurred (ValidationError): Stack with id demo does not exist"),
          Except.ok "sid-0", Except.ok "sid-1", Except.ok (), Except.ok "sid-2",
          Except.ok ()⟩)
        "demo" "tpl" [] [] []).2.any isCreateCall = true ∧
      (ensure_stack
        (traceClient ⟨Except.error (PErr.clientError
            "An error occurred (ValidationError): Stack with id demo does not exist"),
          Except.ok "sid-0", Except.ok "sid-1", Except.ok (), Except.ok "sid-2",
          Except.ok ()⟩)
        "demo" "tpl" [] [] []).2.any isUpdateCall = false) ∧
      (ensure_stack
        (traceClient ⟨Except.error (PErr.clientError "AccessDenied"),
          Except.ok "sid-0", Except.ok "sid-1", Except.ok (), Except.ok "sid-2",
          Except.ok ()⟩)
        "demo" "tpl" [] [] []).1 = Except.error (PErr.clientError "AccessDenied") := by
  constructor
  · exact (ensure_stack_probe_classification
      ⟨Except.error (PErr.clientError
          "An error occurred (ValidationError): Stack with id demo does not exist"),
        Except.ok "sid-0", Except.ok "sid-1", Except.ok (), Except.ok "sid-2",
        Except.ok ()⟩ "demo" "tpl" [] []).1 _ rfl (by decide)
  · exact ((ensure_stack_probe_classification
      ⟨Except.error (PErr.clientError "AccessDenied"),
        Except.ok "sid-0", Except.ok "sid-1", Except.ok (), Except.ok "sid-2",
        Except.ok ()⟩ "demo" "tpl" [] []).2.1 _ rfl (by decide)).1

/-- Claim C2: in the update branch of `ensure_stack` (probe succeeded), an
update failure that is a `ClientError` carrying
`"No updates are to be performed"` is not an error — the stack is re-fetched
with a describe call and its identifier is returned; an update failure of any
other shape propagates to the caller, and so does a failure of the update
waiter of any other shape. -/
theorem ensure_stack_noop_update_absorbed (r : CFResponses) (n b : String)
    (p : List (String × String)) (c : List String) (v : String)
    (hd : r.describeFirst = Except.ok v) :
    (∀ m sid, r.updateResp = Except.error (PErr.clientError m) →
      strIn "No updates are to be performed" m = true →
      r.describeAgain = Except.ok sid →
      (ensure_stack (traceClient r) n b p c []).1 = Except.ok sid) ∧
    (∀ e, r.updateResp = Except.error e →
      (e.isClient && strIn "No updates are to be performed" e.message) = false →
      (ensure_stack (traceClient r) n b p c []).1 = Except.error e) ∧
    (∀ u e, r.updateResp = Except.ok u → r.waitUpdateResp = Except.error e →
      (e.isClient && strIn "No updates are to be performed" e.message) = false →
      (ensure_stack (traceClient r) n b p c []).1 = Except.error e) := by
  refine ⟨?_, ?_, ?_⟩
  · intro m sid hu hm hd₂
    simp [ensure_stack, traceClient, hd, hu, hm, hd₂, PErr.isClient,
      PErr.message, isDescribeCall]
  · intro e hu hcond
    simp [ensure_stack, traceClient, hd, hu, hcond, isDescribeCall]
  · intro u e hu hw hcond
    simp [ensure_stack, traceClient, hd, hu, hw, hcond, isDescribeCall]

/-- Witness for C2: a no-op update error is absorbed and the re-fetched
identifier is returned. -/
theorem ensure_stack_noop_update_absorbed_witness :
    (ensure_stack
      (traceClient ⟨Except.ok "sid-0", Except.ok "sid-0", Except.ok "sid-1",
        Except.ok (),
        Except.error (PErr.clientError
          "An error occurred (ValidationError) when calling the UpdateStack operation: No updates are to be performed."),
        Except.ok ()⟩)
      "demo" "tpl" [] [] []).1 = Except.ok "sid-0" := by
  exact (ensure_stack_noop_update_absorbed
    ⟨Except.ok "sid-0", Except.ok "sid-0", Except.ok "sid-1", Except.ok (),
      Except.error (PErr.clientError
        "An error occurred (ValidationError) when calling the UpdateStack operation: No updates are to be performed."),
      Except.ok ()⟩
    "demo" "tpl" [] [] "sid-0" rfl).1 _ _ rfl (by decide) rfl

/-- The Python expression `capabilities or []` is the identity on lists. -/
theorem caps_or_nil (l : List String) :
    (if l.isEmpty then ([] : List String) else l) = l := by
  cases l <;> simp

/-- Variant of `caps_or_nil` with the emptiness test stated as an equality. -/
theorem caps_or_nil_eq (l : List String) :
    (if l = [] then ([] : List String) else l) = l := by
  split <;> simp_all

/-- `findStack` after `putStack` under the same name: the stored record is
replaced when present. -/
theorem findStack_putStack (nm : String) (r' : StackRec)
    (l : List (String × StackRec)) :
    findStack nm (putStack nm r' l) = (findStack nm l).map (fun _ => r') := by
  induction l with
  | nil => simp [findStack, putStack]
  | cons kv rest ih =>
    by_cases h : kv.1 = nm
    · simp [findStack, putStack, h]
    · simp [findStack, putStack, h, ih]

/-- Running `ensure_stack` against the model on a present stack whose stored
content equals the requested content: the probe succeeds, the update raises
the no-op `ClientError`, the handler re-fetches, and the stored identifier is
returned; the stack table is unchanged, no create call is made, one update
call and two describe calls are made. -/
theorem ensure_stack_model_noop (s : CFModelState) (n b : String)
    (p : List (String × String)) (c : List String) (r : StackRec)
    (hf : findStack n s.stackList = some r)
    (hb : r.templateBody = b)
    (hp : r.parameters = p.map fun kv => CFParameter.mk kv.1 kv.2)
    (hc : r.capabilities = c) :
    (ensure_stack modelClient n b p c s).1 = Except.ok r.stackId ∧
    (ensure_stack modelClient n b p c s).2.stackList = s.stackList ∧
    (ensure_stack modelClient n b p c s).2.createCount = s.createCount ∧
    (ensure_stack modelClient n b p c s).2.updateCount = s.updateCount + 1 ∧
    (ensure_stack modelClient n b p c s).2.describeCount = s.describeCount + 1 + 1 := by
  have hnoop : strIn "No updates are to be performed"
      "An error occurred (ValidationError) when calling the UpdateStack operation: No updates are to be performed." = true := by
    decide
  refine ⟨?_, ?_, ?_, ?_, ?_⟩ <;>
    simp [ensure_stack, modelClient, caps_or_nil, caps_or_nil_eq, hf, hb, hp, hc,
      hnoop, PErr.isClient, PErr.message]

/-- Running `ensure_stack` against the model on an absent stack: the probe
error carries `"does not exist"`, so the stack is created and its
fresh identifier returned; afterwards the stack is stored with exactly the
requested content. -/
theorem ensure_stack_model_absent (s : CFModelState) (n b : String)
    (p : List (String × String)) (c : List String)
    (hf : findStack n s.stackList = none) :
    (ensure_stack modelClient n b p c s).1 =
      Except.ok ("arn:stack/" ++ n ++ "/" ++ toString s.nextId) ∧
    findStack n (ensure_stack modelClient n b p c s).2.stackList =
      some (StackRec.mk ("arn:stack/" ++ n ++ "/" ++ toString s.nextId) b
        (p.map fun kv => CFParameter.mk kv.1 kv.2) c) := by
  have hdne : strIn "does not exist"
      "An error occurred (ValidationError) when calling the DescribeStacks operation: Stack does not exist" = true := by
    decide
  constructor <;>
    simp [ensure_stack, modelClient, caps_or_nil, caps_or_nil_eq, hf, hdne,
      PErr.isClient, PErr.message, findStack]

/-- Running `ensure_stack` against the model on a present stack with
different stored content: the update succeeds and returns the unchanged
identifier; afterwards the stack holds the requested content. -/
theorem ensure_stack_model_changed (s : CFModelState) (n b : String)
    (p : List (String × String)) (c : List String) (r : StackRec)
    (hf : findStack n s.stackList = some r)
    (hne : ¬(r.templateBody = b ∧
      r.parameters = (p.map fun kv => CFParameter.mk kv.1 kv.2) ∧
      r.capabilities = c)) :
    (ensure_stack modelClient n b p c s).1 = Except.ok r.stackId ∧
    findStack n (ensure_stack modelClient n b p c s).2.stackList =
      some (StackRec.mk r.stackId b (p.map fun kv => CFParameter.mk kv.1 kv.2) c) := by
  constructor <;>
    simp [ensure_stack, modelClient, caps_or_nil, caps_or_nil_eq, hf, hne,
      findStack_putStack]

/-- Claim C3: against the modelled provider (`modelClient`), `ensure_stack`
is idempotent — from any provider state, two consecutive calls with the same
stack name, template body, parameter mapping and capability set both return
the same stack identifier, and the second call issues no create call: it
probes, attempts the update, absorbs the no-op answer of the provider (one update
call, two describe calls) and re-fetches the existing identifier. -/
theorem ensure_stack_idempotent (s : CFModelState) (n b : String)
    (p : List (String × String)) (c : List String) :
    ∃ sid,
      (ensure_stack modelClient n b p c s).1 = Except.ok sid ∧
      (ensure_stack modelClient n b p c
          (ensure_stack modelClient n b p c s).2).1 = Except.ok sid ∧
      (ensure_stack modelClient n b p c
          (ensure_stack modelClient n b p c s).2).2.createCount
        = (ensure_stack modelClient n b p c s).2.createCount ∧
      (ensure_stack modelClient n b p c
          (ensure_stack modelClient n b p c s).2).2.updateCount
        = (ensure_stack modelClient n b p c s).2.updateCount + 1 ∧
      (ensure_stack modelClient n b p c
          (ensure_stack modelClient n b p c s).2).2.describeCount
        = (ensure_stack modelClient n b p c s).2.describeCount + 2 := by
  have key : ∃ sid, (ensure_stack modelClient n b p c s).1 = Except.ok sid ∧
      findStack n (ensure_stack modelClient n b p c s).2.stackList =
        some (StackRec.mk sid b (p.map fun kv => CFParameter.mk kv.1 kv.2) c) := by
    cases hf : findStack n s.stackList with
    | none =>
      obtain ⟨h1, h2⟩ := ensure_stack_model_absent s n b p c hf
      exact ⟨_, h1, h2⟩
    | some r =>
      by_cases heq : r.templateBody = b ∧
          r.parameters = (p.map fun kv => CFParameter.mk kv.1 kv.2) ∧
          r.capabilities = c
      · obtain ⟨h1, h2, -, -, -⟩ :=
          ensure_stack_model_noop s n b p c r hf heq.1 heq.2.1 heq.2.2
        refine ⟨r.stackId, h1, ?_⟩
        rw [h2, hf]
        obtain ⟨e1, e2, e3⟩ := heq
        cases r
        simp_all
      · obtain ⟨h1, h2⟩ := ensure_stack_model_changed s n b p c r hf heq
        exact ⟨r.stackId, h1, h2⟩
  obtain ⟨sid, h1, h2⟩ := key
  obtain ⟨g1, -, g3, g4, g5⟩ :=
    ensure_stack_model_noop (ensure_stack modelClient n b p c s).2 n b p c
      (StackRec.mk sid b (p.map fun kv => CFParameter.mk kv.1 kv.2) c) h2 rfl rfl rfl
  exact ⟨sid, h1, g1, g3, g4, by omega⟩

end CMM
